import Mathlib

/-!
Verification development for the crawler repository.

The development shallowly embeds the two spiders of the repository:
`PoliceSpider` (link discovery and classification, `police_spider.py`) and
`TextContentSpider` (text extraction and batch reporting,
`text_content_spider.py`).  Pure Python string and URL operations from the
standard library (`str.strip`, `str.rstrip`, `urllib.parse.urlparse`, the
`in` substring test) are embedded as executable Lean functions on character
lists; the external `urllib.parse.urljoin` and the HTTP fetching layer
(scrapy) are modelled as parameters, since they are collaborators outside
the repository.  Fetched responses are modelled as plain records carrying
the fields the spiders read (url, status, Content-Type header, parsed body,
anchor hrefs, depth).  Timestamps (`extracted_at`) and floating point
averages are omitted from the records: they are environment dependent and
no claim mentions them.
-/

/-- Whitespace characters recognised by Python `str.strip`, `str.split`,
`str.isspace` and the regex class `\s` (ASCII range). -/
def pyIsSpace (c : Char) : Bool :=
  c = ' ' || c = '\t' || c = '\n' || c = '\r' || c = '\x0b' || c = '\x0c'

/-- Python `str.strip()`: drop leading and trailing whitespace. -/
def pyStrip (s : String) : String :=
  String.mk (((s.toList.dropWhile pyIsSpace).reverse.dropWhile pyIsSpace).reverse)

/-- Python `str.isspace()`: nonempty and all characters whitespace. -/
def pyIsSpaceStr (s : String) : Bool :=
  !s.isEmpty && s.toList.all pyIsSpace

/-- Python `str.isalnum()` (ASCII approximation): nonempty and all
characters alphanumeric. -/
def pyIsAlnumStr (s : String) : Bool :=
  !s.isEmpty && s.toList.all Char.isAlphanum

/-- Python `str.isdigit()` (ASCII approximation): nonempty and all
characters digits. -/
def pyIsDigitStr (s : String) : Bool :=
  !s.isEmpty && s.toList.all Char.isDigit

/-- Helper for the Python substring test: does `pat` occur inside `l`? -/
def containsAux (pat : List Char) : List Char → Bool
  | [] => pat.isEmpty
  | c :: rest => pat.isPrefixOf (c :: rest) || containsAux pat rest

/-- Python `pat in s` substring containment test. -/
def strContains (s pat : String) : Bool :=
  containsAux pat.toList s.toList

/-- Accumulator pass for whitespace collapsing; the flag records whether the
previous character was whitespace (so a run emits a single space). -/
def collapseWsAux : List Char → Bool → List Char
  | [], _ => []
  | c :: rest, prevSpace =>
    if pyIsSpace c then
      if prevSpace then collapseWsAux rest true
      else ' ' :: collapseWsAux rest true
    else c :: collapseWsAux rest false

/-- Python `re.sub(r'\s+', ' ', s)`: collapse every whitespace run to one
space. -/
def collapseWs (s : String) : String :=
  String.mk (collapseWsAux s.toList false)

/-- Word accumulator for Python `str.split()` with no separator: split on
whitespace runs, discarding empty pieces.  The second argument is the
current word, reversed. -/
def pySplitWsAux : List Char → List Char → List (List Char)
  | [], cur => if cur.isEmpty then [] else [cur.reverse]
  | c :: rest, cur =>
    if pyIsSpace c then
      if cur.isEmpty then pySplitWsAux rest []
      else cur.reverse :: pySplitWsAux rest []
    else pySplitWsAux rest (c :: cur)

/-- Python `s.split()` with no separator. -/
def pySplitWs (s : String) : List String :=
  (pySplitWsAux s.toList []).map String.mk

/-- Python `' '.join(l)`. -/
def joinSpace : List String → String
  | [] => ""
  | [s] => s
  | s :: rest => s ++ " " ++ joinSpace rest

/-- Python `str.lower()` (ASCII approximation), as a kernel-reducible map
over the character list. -/
def pyLower (s : String) : String :=
  String.mk (s.toList.map Char.toLower)

/-- Characters Python `urllib.parse` accepts inside a URL scheme. -/
def isSchemeChar (c : Char) : Bool :=
  c.isAlphanum || c = '+' || c = '-' || c = '.'

/-- Result record of Python `urllib.parse.urlparse` (the `params` component
is not read by the spiders and is omitted). -/
structure UrlParts where
  scheme : String
  netloc : String
  path : String
  query : String
  fragment : String
deriving DecidableEq

/-- Python `urllib.parse.urlparse`, restricted to the generic syntax the
spiders rely on: an optional `scheme:` whose name starts with a letter, an
optional `//netloc` delimited by `/`, `?` or `#`, then the fragment split
at the first `#` and the query split at the first `?`.  As in Python the
scheme is lower-cased and the netloc is preserved verbatim. -/
def urlparse (url : String) : UrlParts :=
  let chars := url.toList
  let pre := chars.takeWhile (· ≠ ':')
  let hasScheme := decide (pre.length < chars.length) && !pre.isEmpty &&
    (pre.headD ' ').isAlpha && pre.all isSchemeChar
  let scheme := if hasScheme then String.mk (pre.map Char.toLower) else ""
  let rest := if hasScheme then chars.drop (pre.length + 1) else chars
  let hasNetloc := decide (rest.take 2 = ['/', '/'])
  let netlocChars :=
    if hasNetloc then (rest.drop 2).takeWhile (fun c => c ≠ '/' && c ≠ '?' && c ≠ '#')
    else []
  let rest2 := if hasNetloc then rest.drop (2 + netlocChars.length) else rest
  let beforeFrag := rest2.takeWhile (· ≠ '#')
  let fragment := String.mk ((rest2.dropWhile (· ≠ '#')).drop 1)
  let path := beforeFrag.takeWhile (· ≠ '?')
  let query := String.mk ((beforeFrag.dropWhile (· ≠ '?')).drop 1)
  ⟨scheme, String.mk netlocChars, String.mk path, query, fragment⟩

namespace PoliceSpider

/-- Configuration attributes of the `PoliceSpider` class: `allowed_domains`,
`excluded_extensions` and `document_extensions`.  The embedding takes them
as a parameter so that claims quantifying over the configured sets can be
stated; the concrete values of the source are `policeConfig` below. -/
structure CrawlConfig where
  allowed_domains : List String
  excluded_extensions : List String
  document_extensions : List String

/-- Concrete class attributes of `PoliceSpider`. -/
def policeConfig : CrawlConfig :=
  { allowed_domains := ["keralapolice.gov.in"]
    excluded_extensions :=
      ["jpg", "jpeg", "png", "gif", "bmp", "webp", "svg", "ico",
       "js", "css",
       "woff", "woff2", "ttf", "eot", "otf"]
    document_extensions :=
      ["pdf", "doc", "docx", "xls", "xlsx", "ppt", "pptx",
       "txt", "csv", "xml", "json", "zip", "rar"] }

/-- Character-level body of `clean_url`: drop everything from the first
`#` on (`url.split('#')[0]`, guarded by `if '#' in url`), then strip every
trailing `/` (`url.rstrip('/')`). -/
def clean_core (chars : List Char) : List Char :=
  let beforeFrag := if chars.contains '#' then chars.takeWhile (· ≠ '#') else chars
  (beforeFrag.reverse.dropWhile (· = '/')).reverse

/-- `PoliceSpider.clean_url`.  The intermediate `urlparse` call in the
source binds a variable that is never used. -/
def clean_url (url : String) : String :=
  String.mk (clean_core url.toList)

/-- Extension extraction shared by `should_follow_url` and
`is_document_url`: on the lower-cased parsed path, when it contains a `.`,
take the substring after the last `.` (`path.split('.')[-1]`) and cut it at
the first `?` (`.split('?')[0]`). -/
def pathExtension (path : List Char) : List Char :=
  ((path.reverse.takeWhile (· ≠ '.')).reverse).takeWhile (· ≠ '?')

/-- Extension of a URL as the spider extracts it, when the parsed path
contains a dot. -/
def urlExtension (url : String) : Option String :=
  let path := (pyLower (urlparse url).path).toList
  if path.contains '.' then some (String.mk (pathExtension path)) else none

/-- `PoliceSpider.should_follow_url`: reject a URL whose netloc is not an
allowed domain, and a URL whose extension is an excluded extension. -/
def should_follow_url (cfg : CrawlConfig) (url : String) : Bool :=
  let parsed := urlparse url
  if !cfg.allowed_domains.contains parsed.netloc then false
  else
    let path := (pyLower parsed.path).toList
    if path.contains '.' then
      let extension := String.mk (pathExtension path)
      if cfg.excluded_extensions.contains extension then false
      else true
    else true

/-- `PoliceSpider.is_document_url`: the extension, when present, is a
document extension. -/
def is_document_url (cfg : CrawlConfig) (url : String) : Bool :=
  let path := (pyLower (urlparse url).path).toList
  if path.contains '.' then
    cfg.document_extensions.contains (String.mk (pathExtension path))
  else false

/-- Classification outcome of a link, as the branch structure of
`PoliceSpider.parse` (lines 57-76) decides it. -/
inductive UrlClass where
  | InScopePage
  | InScopeDocument
  | OutOfScope
deriving DecidableEq

/-- Classifier composed exactly as in `PoliceSpider.parse`: a link failing
`should_follow_url` is dropped, otherwise `is_document_url` separates
documents from followable pages. -/
def classify (cfg : CrawlConfig) (url : String) : UrlClass :=
  if should_follow_url cfg url then
    if is_document_url cfg url then UrlClass.InScopeDocument
    else UrlClass.InScopePage
  else UrlClass.OutOfScope

/-- Status value of an emitted item: `response.status` is a number, and
document links carry the string sentinel `'document'`. -/
inductive StatusVal where
  | http : Nat → StatusVal
  | document : StatusVal
deriving DecidableEq

/-- Item emitted by `PoliceSpider.parse` (the `UrlItem` shape of
`items.py`). -/
structure CrawlResult where
  url : String
  status_code : StatusVal
  content_type : String
  title : Option String
  depth : Nat
deriving DecidableEq

/-- Fetched page response as `PoliceSpider.parse` reads it: `response.url`,
`response.status`, the Content-Type header, the `title::text` extract, the
`a::attr(href)` extracts and `response.meta['depth']`. -/
structure PageResponse where
  url : String
  status : Nat
  content_type : String
  title : Option String
  links : List String
  depth : Nat

/-- Mutable state and output accumulated while `parse` runs: the
`found_urls` set, the yielded items, and the URLs of the yielded
`response.follow` requests. -/
structure ParseAcc where
  found_urls : List String
  results : List CrawlResult
  follows : List String
deriving DecidableEq

/-- Item yielded for a newly discovered document link at page depth `d`. -/
def docResult (u : String) (d : Nat) : CrawlResult :=
  { url := u
    status_code := StatusVal.document
    content_type := "document"
    title := some "Document Link"
    depth := d + 1 }

/-- Body of the link loop of `PoliceSpider.parse` for one href `link`:
skip falsy links, resolve against the page URL (`urljoin`, passed in as
the external `uj`), clean, and then either drop (out of scope or already
found), emit a document item (recording the URL), or emit a follow
request. -/
def processLink (uj : String → String → String) (cfg : CrawlConfig)
    (pageUrl : String) (d : Nat) (acc : ParseAcc) (link : String) : ParseAcc :=
  if link == "" then acc
  else
    let absolute_url := uj pageUrl (pyStrip link)
    let cleaned_url := clean_url absolute_url
    if should_follow_url cfg cleaned_url then
      if cleaned_url ∈ acc.found_urls then acc
      else if is_document_url cfg cleaned_url then
        { found_urls := acc.found_urls.insert cleaned_url
          results := acc.results ++ [docResult cleaned_url d]
          follows := acc.follows }
      else
        { found_urls := acc.found_urls
          results := acc.results
          follows := acc.follows ++ [cleaned_url] }
    else acc

/-- `PoliceSpider.parse` on one response: add the current URL to
`found_urls`, yield the current page item unconditionally, then run the
link loop. -/
def parse (uj : String → String → String) (cfg : CrawlConfig)
    (found : List String) (r : PageResponse) : ParseAcc :=
  let found := found.insert r.url
  let current : CrawlResult :=
    { url := r.url
      status_code := StatusVal.http r.status
      content_type := r.content_type
      title := r.title
      depth := r.depth }
  r.links.foldl (processLink uj cfg r.url r.depth)
    { found_urls := found, results := [current], follows := [] }

/-- One step of a crawl run: the fetch collaborator delivers a response,
`parse` handles it against the shared `found_urls` state, and the yielded
items and follow requests are appended to the run's output. -/
def crawlStep (uj : String → String → String) (cfg : CrawlConfig)
    (acc : ParseAcc) (r : PageResponse) : ParseAcc :=
  let out := parse uj cfg acc.found_urls r
  { found_urls := out.found_urls
    results := acc.results ++ out.results
    follows := acc.follows ++ out.follows }

/-- A whole crawl run over the sequence of responses the fetch collaborator
delivers, starting from the empty `found_urls` set of `__init__`. -/
def runCrawl (uj : String → String → String) (cfg : CrawlConfig)
    (rs : List PageResponse) : ParseAcc :=
  rs.foldl (crawlStep uj cfg) { found_urls := [], results := [], follows := [] }

/-- Number of document-sentinel items for URL `u` in an output list. -/
def docCount (res : List CrawlResult) (u : String) : Nat :=
  res.countP (fun cr => cr.url == u && cr.status_code == StatusVal.document)

end PoliceSpider

mutual
/-- Parsed HTML node as lxml exposes it to the spider: an element with a
tag name (lower-cased by the parser), attributes and children, or a text
node.  Defined mutually with `Forest` (a list of sibling nodes) so that
tree functions are structurally recursive and compute inside the kernel. -/
inductive Node where
  | element : String → List (String × String) → Forest → Node
  | text : String → Node
inductive Forest where
  | nil : Forest
  | cons : Node → Forest → Forest
end

/-- Remove from a forest every element node matching `p` (together with its
subtree), recursing into the children of surviving elements.  This models
the `element.remove()` loop of `extract_visible_text`: parsel drops each
matched element from the document tree. -/
def removeAllF (p : String → List (String × String) → Bool) : Forest → Forest
  | Forest.nil => Forest.nil
  | Forest.cons n rest =>
    match n with
    | Node.text s => Forest.cons (Node.text s) (removeAllF p rest)
    | Node.element t a ch =>
      if p t a then removeAllF p rest
      else Forest.cons (Node.element t a (removeAllF p ch)) (removeAllF p rest)

/-- Number of element nodes matching `p`, in the whole forest (nested
matches included), modelling `len(selector.css(css_selector))`. -/
def countMatchesF (p : String → List (String × String) → Bool) : Forest → Nat
  | Forest.nil => 0
  | Forest.cons n rest =>
    match n with
    | Node.text _ => countMatchesF p rest
    | Node.element t a ch =>
      (if p t a then 1 else 0) + countMatchesF p ch + countMatchesF p rest

/-- All text nodes of a forest in document order, modelling
`selector.css('*::text').getall()`. -/
def collectTextsF : Forest → List String
  | Forest.nil => []
  | Forest.cons n rest =>
    match n with
    | Node.text s => s :: collectTextsF rest
    | Node.element _ _ ch => collectTextsF ch ++ collectTextsF rest

/-- Text nodes that are direct children of a forest (used for `::text` on a
specific element). -/
def directTextsF : Forest → List String
  | Forest.nil => []
  | Forest.cons n rest =>
    match n with
    | Node.text s => s :: directTextsF rest
    | Node.element _ _ _ => directTextsF rest

/-- Text contents of `title` elements in document order, modelling
`response.css('title::text')`. -/
def titleTextsF : Forest → List String
  | Forest.nil => []
  | Forest.cons n rest =>
    match n with
    | Node.text _ => titleTextsF rest
    | Node.element t _ ch =>
      (if t == "title" then directTextsF ch else []) ++ titleTextsF ch ++ titleTextsF rest

/-- Attribute lookup on an element. -/
def getAttr (attrs : List (String × String)) (name : String) : Option String :=
  (attrs.find? (fun p => p.1 == name)).map (fun p => p.2)

/-- Class list of an element: the `class` attribute split on whitespace. -/
def classList (attrs : List (String × String)) : List String :=
  match getAttr attrs "class" with
  | some s => pySplitWs s
  | none => []

namespace TextContentSpider

/-- Document extensions skipped by `TextContentSpider`. -/
def document_extensions : List String :=
  ["pdf", "doc", "docx", "xls", "xlsx", "ppt", "pptx",
   "txt", "csv", "zip", "rar", "tar", "gz"]

/-- CSS selectors for elements to exclude, exactly the
`excluded_selectors` class attribute. -/
def excluded_selectors : List String :=
  ["header", "footer", "nav", "aside",
   ".header", ".footer", ".navigation", ".nav", ".navbar", ".sidebar",
   ".breadcrumb", ".breadcrumbs", ".menu", ".main-menu", ".top-menu",
   ".bottom-menu", ".copyright", ".social", ".social-media", ".social-links",
   "#header", "#footer", "#navigation", "#nav", "#navbar", "#sidebar",
   "#menu", "#top-menu", "#bottom-menu",
   ".skip", ".skip-link", ".skip-content", ".advertisement", ".ads",
   ".ad-banner", ".banner", ".promo", ".popup", ".modal", ".overlay",
   ".cookie-notice", ".cookie-banner", ".privacy-notice", ".gdpr-notice",
   ".search", ".search-form", ".search-box", ".login", ".login-form",
   ".user-menu",
   ".language-selector", ".lang-selector", ".accessibility-controls",
   ".text-size-controls",
   ".share", ".sharing", ".social-share",
   ".back-to-top", ".scroll-to-top",
   ".print", ".email", ".print-page", ".email-page"]

/-- Simple CSS selector supported by the embedding: a tag name, a class
selector `.name`, or an id selector `#name`. -/
inductive SimpleSel where
  | tagSel : String → SimpleSel
  | classSel : String → SimpleSel
  | idSel : String → SimpleSel
deriving DecidableEq

/-- Characters allowed in a selector name. -/
def isSelNameChar (c : Char) : Bool :=
  c.isAlphanum || c = '-' || c = '_'

/-- Parse a CSS selector string.  A string outside the simple tag, `.class`
or `#id` grammar yields `none`, modelling the selector engine raising on a
malformed or unsupported selector (which the `try`/`except` of
`extract_visible_text` turns into a skip). -/
def parseSelector (s : String) : Option SimpleSel :=
  match s.toList with
  | [] => none
  | '.' :: rest =>
    if !rest.isEmpty && rest.all isSelNameChar then some (SimpleSel.classSel (String.mk rest))
    else none
  | '#' :: rest =>
    if !rest.isEmpty && rest.all isSelNameChar then some (SimpleSel.idSel (String.mk rest))
    else none
  | l =>
    if l.all isSelNameChar then some (SimpleSel.tagSel (String.mk l))
    else none

/-- Does an element with the given tag and attributes match a simple
selector? -/
def matchesSel (sel : SimpleSel) (tag : String) (attrs : List (String × String)) : Bool :=
  match sel with
  | SimpleSel.tagSel t => tag == t
  | SimpleSel.classSel c => (classList attrs).contains c
  | SimpleSel.idSel i => getAttr attrs "id" == some i

/-- One iteration of the excluded-selector loop of `extract_visible_text`:
count the elements the selector matches, then remove them; a selector that
fails to apply is skipped (`try`/`except` ... `continue`). -/
def applySelector (acc : Forest × Nat) (sel : String) : Forest × Nat :=
  match parseSelector sel with
  | none => acc
  | some s => (removeAllF (matchesSel s) acc.1, acc.2 + countMatchesF (matchesSel s) acc.1)

/-- Does an element's inline `style` attribute contain one of the given
substrings (modelling `*[style*="..."]` attribute selectors)? -/
def styleContains (pats : List String) (_tag : String)
    (attrs : List (String × String)) : Bool :=
  match getAttr attrs "style" with
  | some st => pats.any (fun p => strContains st p)
  | none => false

/-- Navigation phrases skipped by `is_navigation_text`. -/
def nav_patterns : List String :=
  ["skip to content", "skip to main content", "skip navigation",
   "home", "contact us", "about us", "privacy policy", "terms of service",
   "sitemap", "back to top", "print page", "email page", "share this page",
   "follow us", "copyright", "©", "all rights reserved", "powered by",
   "website by", "designed by"]

/-- `TextContentSpider.is_navigation_text`: lower-case and strip the text,
skip it when it contains a navigation phrase, is a single non-alphanumeric
character, or is all digits. -/
def is_navigation_text (text : String) : Bool :=
  let text_lower := pyStrip (pyLower text)
  if nav_patterns.any (fun pat => strContains text_lower pat) then true
  else if (text_lower.length == 1) && !(pyIsAlnumStr text_lower) then true
  else if pyIsDigitStr text_lower then true
  else false

/-- Filter applied to each collected text node: strip, keep only nonempty,
non-whitespace text longer than one character that is not navigation
text. -/
def keepText (t0 : String) : Option String :=
  let t := pyStrip t0
  if (t != "") && !(pyIsSpaceStr t) && decide (t.length > 1) && !(is_navigation_text t)
  then some t else none

/-- `TextContentSpider.extract_visible_text`: remove the configured noise
selectors (counting matches), remove `script` and `style` elements, remove
elements hidden by inline style, collect the remaining text nodes, filter
them, join with spaces, collapse whitespace and strip. -/
def extract_visible_text (selectors : List String) (doc : Forest) : String × Nat :=
  let fc := selectors.foldl applySelector (doc, 0)
  let d := removeAllF (fun t _ => t == "script") fc.1
  let d := removeAllF (fun t _ => t == "style") d
  let d := removeAllF (styleContains ["display: none", "display:none"]) d
  let d := removeAllF (styleContains ["visibility: hidden", "visibility:hidden"]) d
  let text_elements := collectTextsF d
  let cleaned_text := text_elements.filterMap keepText
  let full_text := joinSpace cleaned_text
  let full_text := collapseWs full_text
  (pyStrip full_text, fc.2)

/-- One row appended to `self.results` (the `extracted_at` timestamp is
environment dependent and omitted; `content_type` is `none` for the rows
`handle_error` appends with `'content_type': None`). -/
structure ExtractionResult where
  url : String
  title : Option String
  text_content : Option String
  content_type : Option String
  error : String
  status_code : Option Nat
  word_count : Nat
  excluded_elements_count : Nat
deriving DecidableEq

/-- Fetched response as `TextContentSpider.parse` reads it:
`response.url`, the `original_url` request meta, `response.status`, the
Content-Type header and the parsed HTML body. -/
structure TCResponse where
  url : String
  original_url : Option String
  status : Nat
  content_type_header : String
  body : Forest

/-- `TextContentSpider.parse` on one successfully fetched response: a
response whose lower-cased Content-Type contains neither `text/html` nor
`application/xhtml` becomes a `not_html_content` row with no extracted
text; otherwise the title and visible text are extracted, the word count
computed, and an `error = 'none'` row built. -/
def parse_tc (r : TCResponse) : ExtractionResult :=
  let url := r.original_url.getD r.url
  let content_type := pyLower r.content_type_header
  if !(strContains content_type "text/html") && !(strContains content_type "application/xhtml") then
    { url := url
      title := none
      text_content := none
      content_type := some content_type
      error := "not_html_content"
      status_code := some r.status
      word_count := 0
      excluded_elements_count := 0 }
  else
    let title :=
      match (titleTextsF r.body).head? with
      | some t => if t == "" then some t else some (pyStrip t)
      | none => none
    let tc := TextContentSpider.extract_visible_text TextContentSpider.excluded_selectors r.body
    let word_count := if tc.1 == "" then 0 else (pySplitWs tc.1).length
    { url := url
      title := title
      text_content := some tc.1
      content_type := some content_type
      error := "none"
      status_code := some r.status
      word_count := word_count
      excluded_elements_count := tc.2 }

/-- The `self.results.append(result)` step at the end of
`TextContentSpider.parse`. -/
def parse_tc_step (results : List ExtractionResult) (r : TCResponse) : List ExtractionResult :=
  results ++ [parse_tc r]

/-- Integer fields of the summary object computed by
`TextContentSpider.closed` (the float averages, the formatted success-rate
string and the completion timestamp are omitted). -/
structure ExtractionSummary where
  total_urls_processed : Nat
  successful_extractions : Nat
  errors : Nat
  skipped_documents : Nat
  not_html_content : Nat
  total_words_extracted : Nat
  total_excluded_elements : Nat
deriving DecidableEq

/-- Summary statistics of `TextContentSpider.closed` over the accumulated
result rows. -/
def computeSummary (results : List ExtractionResult) : ExtractionSummary :=
  { total_urls_processed := results.length
    successful_extractions := (results.filter (fun r => r.error == "none")).length
    errors := (results.filter (fun r => !(r.error == "none" || r.error == "skipped_document"))).length
    skipped_documents := (results.filter (fun r => r.error == "skipped_document")).length
    not_html_content := (results.filter (fun r => r.error == "not_html_content")).length
    total_words_extracted :=
      ((results.filter (fun r => r.word_count != 0)).map (fun r => r.word_count)).sum
    total_excluded_elements :=
      ((results.filter (fun r => r.excluded_elements_count != 0)).map
        (fun r => r.excluded_elements_count)).sum }

/-- Python value as `json.load` produces it, for the URL-list input of
`TextContentSpider.start_requests`. -/
inductive PyVal where
  | str : String → PyVal
  | num : Int → PyVal
  | bool : Bool → PyVal
  | null : PyVal
  | list : List PyVal → PyVal
  | dict : List (String × PyVal) → PyVal

/-- Python `d.get(k, default)` on a dict. -/
def dictGet (fs : List (String × PyVal)) (k : String) (default : PyVal) : PyVal :=
  match fs.find? (fun p => p.1 == k) with
  | some p => p.2
  | none => default

/-- Python iteration over a value (`for url in urls`): a list yields its
items, a string its characters, a dict its keys; numbers, booleans and
`None` are not iterable. -/
def pyIterate : PyVal → Option (List PyVal)
  | PyVal.list xs => some xs
  | PyVal.str s => some (s.toList.map (fun c => PyVal.str (String.mk [c])))
  | PyVal.dict fs => some (fs.map (fun p => PyVal.str p.1))
  | _ => none

/-- Per-item step of the list comprehension in `start_requests`:
`item.get('url', item) if isinstance(item, dict) else item`. -/
def urlOfItem : PyVal → PyVal
  | PyVal.dict fs => dictGet fs "url" (PyVal.dict fs)
  | it => it

/-- The input-shape normalisation of `TextContentSpider.start_requests`: a
list maps each dict item to its `url` field (defaulting to the item), a
dict yields its `urls` value or the singleton of its `url` field
(defaulting to the empty string), anything else yields no URLs.  `none`
models Python raising while iterating a non-iterable `urls` value. -/
def urls_from_data : PyVal → Option (List PyVal)
  | PyVal.list items => some (items.map urlOfItem)
  | PyVal.dict fs =>
    match fs.find? (fun p => p.1 == "urls") with
    | some p => pyIterate p.2
    | none => some [dictGet fs "url" (PyVal.str "")]
  | _ => some []

/-- The document of the extraction scenario,
`<header>Nav</header><p>Hello   world</p><footer>©2024</footer>`, as lxml
parses it (wrapped in `html` and `body`). -/
def scenarioDoc : Forest :=
  Forest.cons (Node.element "html" [] (
    Forest.cons (Node.element "body" [] (
      Forest.cons (Node.element "header" [] (Forest.cons (Node.text "Nav") Forest.nil)) (
      Forest.cons (Node.element "p" [] (Forest.cons (Node.text "Hello   world") Forest.nil)) (
      Forest.cons (Node.element "footer" [] (Forest.cons (Node.text "©2024") Forest.nil))
      Forest.nil)))) Forest.nil)) Forest.nil

/-- A fetched HTML response carrying the scenario document. -/
def scenarioResponse : TCResponse :=
  { url := "http://example.test/page"
    original_url := none
    status := 200
    content_type_header := "text/html; charset=utf-8"
    body := scenarioDoc }

/-- A page response for the start URL with no outbound links, as delivered
by the fetch collaborator. -/
def selfResponse : PoliceSpider.PageResponse :=
  { url := "https://keralapolice.gov.in/"
    status := 200
    content_type := "text/html"
    title := some "Kerala Police"
    links := []
    depth := 0 }

/-- A small document used to witness selector-failure resilience. -/
def resilienceDoc : Forest :=
  Forest.cons (Node.element "html" [] (
    Forest.cons (Node.element "body" [] (
      Forest.cons (Node.element "header" [] (Forest.cons (Node.text "Site menu") Forest.nil)) (
      Forest.cons (Node.element "p" [] (Forest.cons (Node.text "Main article body") Forest.nil))
      Forest.nil))) Forest.nil)) Forest.nil

/-- A non-HTML JSON response for the content-type gate. -/
def jsonResponse : TCResponse :=
  { url := "http://example.test/data"
    original_url := some "http://example.test/data"
    status := 200
    content_type_header := "application/json"
    body := Forest.nil }

/-- An HTML response with an upper-case Content-Type header. -/
def htmlResponse : TCResponse :=
  { url := "http://example.test/page2"
    original_url := none
    status := 200
    content_type_header := "TEXT/HTML"
    body := Forest.nil }

/-- Invariant coupling the `found_urls` state with the items emitted so
far: every URL occurs in at most one document-sentinel item, and a URL
with a document item is recorded in `found_urls`. -/
def DocInv (found : List String) (res : List PoliceSpider.CrawlResult) : Prop :=
  ∀ u, PoliceSpider.docCount res u ≤ 1 ∧
    (1 ≤ PoliceSpider.docCount res u → u ∈ found)

/-- When a list already contains `#`, appending more characters does not
change the prefix before the first `#`. -/
theorem takeWhile_ne_hash_append (l l2 : List Char) (h : '#' ∈ l) :
    (l ++ l2).takeWhile (· ≠ '#') = l.takeWhile (· ≠ '#') := by
  induction l with
  | nil => exact absurd h (List.not_mem_nil '#')
  | cons c t ih =>
    by_cases hc : c = '#'
    · subst hc
      simp [List.takeWhile_cons]
    · have ht : '#' ∈ t := by
        rcases List.mem_cons.mp h with h1 | h1
        · exact absurd h1.symm hc
        · exact h1
      have ih2 := ih ht
      simp [List.cons_append, List.takeWhile_cons, hc] at ih2 ⊢
      exact ih2

/-- Appending a trailing `/` does not change `clean_core`: the
`rstrip('/')` step removes every trailing slash. -/
theorem clean_core_append_slash (l : List Char) :
    PoliceSpider.clean_core (l ++ ['/']) = PoliceSpider.clean_core l := by
  unfold PoliceSpider.clean_core
  by_cases h : '#' ∈ l
  · have hc : l.contains '#' = true := List.elem_eq_true_of_mem h
    have hc2 : (l ++ ['/']).contains '#' = true :=
      List.elem_eq_true_of_mem (List.mem_append_left _ h)
    simp only [hc, hc2, if_true, takeWhile_ne_hash_append l ['/'] h]
  · have hc : l.contains '#' = false := by
      cases hb : l.contains '#'
      · rfl
      · exact absurd (List.elem_iff.mp hb) h
    have hc2 : (l ++ ['/']).contains '#' = false := by
      cases hb : (l ++ ['/']).contains '#'
      · rfl
      · rcases List.mem_append.mp (List.elem_iff.mp hb) with h1 | h1
        · exact absurd h1 h
        · simp at h1
    simp only [hc, hc2]
    simp [List.reverse_append, List.dropWhile_cons]

/-- C2 counterexample: the claim says normalization removes exactly one
trailing slash, so a path ending in `//` would keep one slash; the code's
`rstrip('/')` removes both. -/
theorem clean_url_double_slash_refutes_single_strip :
    PoliceSpider.clean_url "http://h/a//" = "http://h/a" ∧
    PoliceSpider.clean_url "http://h/a//" ≠ "http://h/a/" := by decide

/-- C2 (amended): normalization removes every trailing slash from the URL
string (appending a trailing slash never changes the result, so a path
ending in `//` loses both slashes), and the root URL `scheme://host/`
yields `scheme://host`. -/
theorem clean_url_strips_all_trailing_slashes :
    (∀ url : String, PoliceSpider.clean_url (url ++ "/") = PoliceSpider.clean_url url) ∧
    PoliceSpider.clean_url "http://h/" = "http://h" ∧
    PoliceSpider.clean_url "https://keralapolice.gov.in/" = "https://keralapolice.gov.in" := by
  refine ⟨?_, by decide, by decide⟩
  intro url
  exact congrArg String.mk (clean_core_append_slash url.toList)

/-- C3: normalization equates a URL with a fragment, and a URL with a
trailing slash, with the bare URL. -/
theorem clean_url_fragment_and_slash_equivalence :
    PoliceSpider.clean_url "http://h/a#frag" = PoliceSpider.clean_url "http://h/a" ∧
    PoliceSpider.clean_url "http://h/a/" = PoliceSpider.clean_url "http://h/a" := by decide

/-- A URL whose extracted extension is excluded fails
`should_follow_url`, whatever the allowed domains and document
extensions. -/
theorem should_follow_url_false_of_excluded (cfg : PoliceSpider.CrawlConfig) (url e : String)
    (h1 : PoliceSpider.urlExtension url = some e) (h2 : e ∈ cfg.excluded_extensions) :
    PoliceSpider.should_follow_url cfg url = false := by
  have hmem : cfg.excluded_extensions.contains e = true := List.elem_eq_true_of_mem h2
  simp only [PoliceSpider.urlExtension] at h1
  split at h1
  · injection h1 with he
    rename_i hdot
    simp only [PoliceSpider.should_follow_url]
    simp
    intro _
    exact ⟨List.elem_iff.mp hdot, he.symm ▸ h2⟩
  · exact Option.noConfusion h1

/-- C4: a URL whose extracted extension is excluded is classified
`OutOfScope` regardless of the document-extension set (the
`should_follow_url` check runs before `is_document_url`): `parse` neither
follows it nor emits a document item for it. -/
theorem excluded_extension_out_of_scope (cfg : PoliceSpider.CrawlConfig) (url e : String)
    (h1 : PoliceSpider.urlExtension url = some e) (h2 : e ∈ cfg.excluded_extensions) :
    PoliceSpider.classify cfg url = PoliceSpider.UrlClass.OutOfScope ∧
    (∀ (uj : String → String → String) (pageUrl : String) (d : Nat)
       (acc : PoliceSpider.ParseAcc) (link : String),
       PoliceSpider.clean_url (uj pageUrl (pyStrip link)) = url →
       PoliceSpider.processLink uj cfg pageUrl d acc link = acc) := by
  have hf : PoliceSpider.should_follow_url cfg url = false :=
    should_follow_url_false_of_excluded cfg url e h1 h2
  constructor
  · simp [PoliceSpider.classify, hf]
  · intro uj pageUrl d acc link hclean
    simp only [PoliceSpider.processLink]
    split
    · rfl
    · rw [hclean, hf]
      simp

/-- Witness for C4 at a concrete input: extension `pdf` placed in both the
excluded and the document sets still classifies as `OutOfScope`. -/
theorem excluded_extension_out_of_scope_witness :
    PoliceSpider.classify ⟨["keralapolice.gov.in"], ["pdf"], ["pdf"]⟩
      "https://keralapolice.gov.in/a.pdf" = PoliceSpider.UrlClass.OutOfScope :=
  (excluded_extension_out_of_scope ⟨["keralapolice.gov.in"], ["pdf"], ["pdf"]⟩
    "https://keralapolice.gov.in/a.pdf" "pdf" (by decide) (by decide)).1

/-- C5: a nonempty link that cleans to an in-scope document URL not yet in
`found_urls` is recorded in `found_urls` and yields exactly one item with
the `'document'` status sentinel, content type `document`, title
`Document Link` and the page depth plus one; no follow request is emitted
for it. -/
theorem document_link_single_emission (uj : String → String → String)
    (cfg : PoliceSpider.CrawlConfig) (pageUrl : String) (d : Nat)
    (acc : PoliceSpider.ParseAcc) (link : String)
    (h0 : (link == "") = false)
    (hf : PoliceSpider.should_follow_url cfg (PoliceSpider.clean_url (uj pageUrl (pyStrip link))) = true)
    (hn : PoliceSpider.clean_url (uj pageUrl (pyStrip link)) ∉ acc.found_urls)
    (hd : PoliceSpider.is_document_url cfg (PoliceSpider.clean_url (uj pageUrl (pyStrip link))) = true) :
    PoliceSpider.processLink uj cfg pageUrl d acc link =
      { found_urls := acc.found_urls.insert (PoliceSpider.clean_url (uj pageUrl (pyStrip link)))
        results := acc.results ++
          [{ url := PoliceSpider.clean_url (uj pageUrl (pyStrip link))
             status_code := PoliceSpider.StatusVal.document
             content_type := "document"
             title := some "Document Link"
             depth := d + 1 }]
        follows := acc.follows } := by
  simp only [PoliceSpider.processLink, PoliceSpider.docResult, h0, hf, hn, hd]
  simp

/-- Witness for C5: a concrete PDF link on the start page. -/
theorem document_link_single_emission_witness :
    PoliceSpider.processLink (fun _ l => l) PoliceSpider.policeConfig
      "https://keralapolice.gov.in/" 0
      ⟨["https://keralapolice.gov.in/"], [], []⟩
      "https://keralapolice.gov.in/forms/app.pdf" =
      ⟨["https://keralapolice.gov.in/forms/app.pdf", "https://keralapolice.gov.in/"],
       [⟨"https://keralapolice.gov.in/forms/app.pdf", PoliceSpider.StatusVal.document,
         "document", some "Document Link", 1⟩], []⟩ :=
  document_link_single_emission (fun _ l => l) PoliceSpider.policeConfig
    "https://keralapolice.gov.in/" 0
    ⟨["https://keralapolice.gov.in/"], [], []⟩
    "https://keralapolice.gov.in/forms/app.pdf"
    (by decide) (by decide) (by decide) (by decide)

/-- C6: a fetched response whose Content-Type contains neither `text/html`
nor `application/xhtml` appends a row with `error = not_html_content`, no
text, zero word count and the response's status code; a response whose
Content-Type contains one of them yields `error = none`. -/
theorem parse_content_type_gate (results : List ExtractionResult) (r : TCResponse) :
    (strContains (pyLower r.content_type_header) "text/html" = false →
     strContains (pyLower r.content_type_header) "application/xhtml" = false →
     parse_tc_step results r = results ++
       [{ url := r.original_url.getD r.url
          title := none
          text_content := none
          content_type := some (pyLower r.content_type_header)
          error := "not_html_content"
          status_code := some r.status
          word_count := 0
          excluded_elements_count := 0 }]) ∧
    (strContains (pyLower r.content_type_header) "text/html" = true ∨
     strContains (pyLower r.content_type_header) "application/xhtml" = true →
     (parse_tc r).error = "none") := by
  constructor
  · intro h1 h2
    simp [parse_tc_step, parse_tc, h1, h2]
  · intro h
    rcases h with h | h <;> simp [parse_tc, h]

/-- Witness for C6: a JSON response is recorded as `not_html_content` with
its status code, and an upper-case `TEXT/HTML` response extracts with
`error = none`. -/
theorem parse_content_type_gate_witness :
    parse_tc_step [] jsonResponse =
      [{ url := "http://example.test/data"
         title := none
         text_content := none
         content_type := some "application/json"
         error := "not_html_content"
         status_code := some 200
         word_count := 0
         excluded_elements_count := 0 }] ∧
    (parse_tc htmlResponse).error = "none" :=
  ⟨(parse_content_type_gate [] jsonResponse).1 (by decide) (by decide),
   (parse_content_type_gate [] htmlResponse).2 (Or.inl (by decide))⟩

/-- C7: the scenario document extracts to exactly `Hello world` with two
excluded elements and a word count of two. -/
theorem extraction_scenario_header_footer :
    TextContentSpider.extract_visible_text TextContentSpider.excluded_selectors scenarioDoc =
      ("Hello world", 2) ∧
    (parse_tc scenarioResponse).text_content = some "Hello world" ∧
    (parse_tc scenarioResponse).excluded_elements_count = 2 ∧
    (parse_tc scenarioResponse).word_count = 2 := by decide

/-- C8: a selector that fails to apply is skipped and every remaining
selector is still applied: extraction over a selector list containing a
failing selector equals extraction over the list with that selector
removed (and in particular still returns a (text, count) pair). -/
theorem failing_selector_skipped (doc : Forest) (pre post : List String) (sel : String)
    (h : TextContentSpider.parseSelector sel = none) :
    TextContentSpider.extract_visible_text (pre ++ sel :: post) doc =
    TextContentSpider.extract_visible_text (pre ++ post) doc := by
  unfold TextContentSpider.extract_visible_text
  have hfold : (pre ++ sel :: post).foldl TextContentSpider.applySelector (doc, 0) =
      (pre ++ post).foldl TextContentSpider.applySelector (doc, 0) := by
    rw [List.foldl_append, List.foldl_append, List.foldl_cons]
    have hstep : ∀ acc : Forest × Nat, TextContentSpider.applySelector acc sel = acc := by
      intro acc
      simp [TextContentSpider.applySelector, h]
    rw [hstep]
  rw [hfold]

/-- Witness for C8: the malformed selector `[bad` between `header` and
`footer` changes nothing. -/
theorem failing_selector_skipped_witness :
    TextContentSpider.extract_visible_text ["header", "[bad", "footer"] resilienceDoc =
    TextContentSpider.extract_visible_text ["header", "footer"] resilienceDoc :=
  failing_selector_skipped resilienceDoc ["header"] ["footer"] "[bad" (by decide)

/-- C9: all four accepted input shapes normalise to the same flat list of
URL strings before any per-URL processing. -/
theorem input_shapes_normalised (us : List String) (u : String) :
    urls_from_data (PyVal.list (us.map PyVal.str)) = some (us.map PyVal.str) ∧
    urls_from_data (PyVal.list (us.map (fun s => PyVal.dict [("url", PyVal.str s)]))) =
      some (us.map PyVal.str) ∧
    urls_from_data (PyVal.dict [("urls", PyVal.list (us.map PyVal.str))]) =
      some (us.map PyVal.str) ∧
    urls_from_data (PyVal.dict [("url", PyVal.str u)]) = some [PyVal.str u] := by
  refine ⟨?_, ?_, rfl, rfl⟩
  · rw [urls_from_data, List.map_map]
    rfl
  · rw [urls_from_data, List.map_map]
    rfl

/-- Generic three-way partition of a list length by two mutually exclusive
Boolean predicates and their complement. -/
theorem length_filter_three_way {α : Type} (p q : α → Bool) (l : List α)
    (hpq : ∀ a ∈ l, ¬(p a = true ∧ q a = true)) :
    l.length = (l.filter p).length + (l.filter q).length +
      (l.filter (fun a => !(p a || q a))).length := by
  induction l with
  | nil => rfl
  | cons a t ih =>
    have ih2 := ih (fun x hx => hpq x (List.mem_cons_of_mem a hx))
    have ha := hpq a (List.mem_cons_self a t)
    simp only [List.filter_cons, List.length_cons]
    cases hp : p a
    · cases hq : q a
      · simp [hp, hq]
        simp at ih2
        omega
      · simp [hp, hq]
        simp at ih2
        omega
    · cases hq : q a
      · simp [hp, hq]
        simp at ih2
        omega
      · exact absurd ⟨hp, hq⟩ ha

/-- Filtering by a pointwise stronger predicate yields at most as many
elements. -/
theorem length_filter_le_of_imp {α : Type} (p q : α → Bool) (l : List α)
    (h : ∀ a ∈ l, p a = true → q a = true) :
    (l.filter p).length ≤ (l.filter q).length := by
  induction l with
  | nil => exact Nat.le_refl 0
  | cons a t ih =>
    have ih2 := ih (fun x hx => h x (List.mem_cons_of_mem a hx))
    simp only [List.filter_cons]
    cases hp : p a
    · cases hq : q a
      · simp
        exact ih2
      · simp
        exact Nat.le_succ_of_le ih2
    · have hq : q a = true := h a (List.mem_cons_self a t) hp
      rw [hq]
      simp
      exact ih2

/-- C10: the summary of `closed` partitions the rows by their `error`
field: the total equals successful plus skipped plus errors, and
`not_html_content` rows are counted inside the errors, not as a fourth
disjoint class. -/
theorem summary_error_partition (results : List ExtractionResult) :
    (computeSummary results).total_urls_processed =
      (computeSummary results).successful_extractions +
      (computeSummary results).skipped_documents +
      (computeSummary results).errors ∧
    (computeSummary results).not_html_content ≤ (computeSummary results).errors := by
  constructor
  · simp only [computeSummary]
    apply length_filter_three_way
      (fun r => r.error == "none") (fun r => r.error == "skipped_document") results
    intro a _ hc
    obtain ⟨h1, h2⟩ := hc
    simp only [beq_iff_eq] at h1 h2
    rw [h1] at h2
    exact absurd h2 (by decide)
  · simp only [computeSummary]
    apply length_filter_le_of_imp
    intro a _ hp
    simp only [beq_iff_eq] at hp
    simp [hp]

/-- Document counts add over list append. -/
theorem docCount_append (res1 res2 : List PoliceSpider.CrawlResult) (u : String) :
    PoliceSpider.docCount (res1 ++ res2) u =
      PoliceSpider.docCount res1 u + PoliceSpider.docCount res2 u := by
  simp [PoliceSpider.docCount, List.countP_append]

/-- An item with a numeric status contributes no document count. -/
theorem docCount_http_zero (v : String) (n : Nat) (ct : String) (ti : Option String)
    (dp : Nat) (u : String) :
    PoliceSpider.docCount
      [{ url := v, status_code := PoliceSpider.StatusVal.http n,
         content_type := ct, title := ti, depth := dp }] u = 0 := by
  simp [PoliceSpider.docCount]

/-- Document count of a single document item. -/
theorem docCount_docResult (w : String) (d : Nat) (u : String) :
    PoliceSpider.docCount [PoliceSpider.docResult w d] u = if w = u then 1 else 0 := by
  by_cases h : w = u <;> simp [PoliceSpider.docCount, PoliceSpider.docResult, h]

/-- Equation for `processLink` in the newly-discovered-document branch. -/
theorem processLink_document_eq (uj : String → String → String)
    (cfg : PoliceSpider.CrawlConfig) (pageUrl : String) (d : Nat)
    (acc : PoliceSpider.ParseAcc) (link : String)
    (h0 : (link == "") = false)
    (hf : PoliceSpider.should_follow_url cfg
      (PoliceSpider.clean_url (uj pageUrl (pyStrip link))) = true)
    (hm : PoliceSpider.clean_url (uj pageUrl (pyStrip link)) ∉ acc.found_urls)
    (hd : PoliceSpider.is_document_url cfg
      (PoliceSpider.clean_url (uj pageUrl (pyStrip link))) = true) :
    PoliceSpider.processLink uj cfg pageUrl d acc link =
      { found_urls := acc.found_urls.insert (PoliceSpider.clean_url (uj pageUrl (pyStrip link)))
        results := acc.results ++
          [PoliceSpider.docResult (PoliceSpider.clean_url (uj pageUrl (pyStrip link))) d]
        follows := acc.follows } := by
  simp only [PoliceSpider.processLink, h0, hf, hd]
  simp [hm]

/-- One link-loop step preserves the document invariant, for any items
`pre` accumulated before the current `parse` call. -/
theorem processLink_docInv (uj : String → String → String)
    (cfg : PoliceSpider.CrawlConfig) (pageUrl : String) (d : Nat)
    (acc : PoliceSpider.ParseAcc) (link : String)
    (pre : List PoliceSpider.CrawlResult)
    (h : DocInv acc.found_urls (pre ++ acc.results)) :
    DocInv (PoliceSpider.processLink uj cfg pageUrl d acc link).found_urls
      (pre ++ (PoliceSpider.processLink uj cfg pageUrl d acc link).results) := by
  cases h0 : (link == "") with
  | true =>
    have heq : PoliceSpider.processLink uj cfg pageUrl d acc link = acc := by
      simp [PoliceSpider.processLink, h0]
    rw [heq]
    exact h
  | false =>
    cases hf : PoliceSpider.should_follow_url cfg
        (PoliceSpider.clean_url (uj pageUrl (pyStrip link))) with
    | false =>
      have heq : PoliceSpider.processLink uj cfg pageUrl d acc link = acc := by
        simp [PoliceSpider.processLink, h0, hf]
      rw [heq]
      exact h
    | true =>
      by_cases hm : PoliceSpider.clean_url (uj pageUrl (pyStrip link)) ∈ acc.found_urls
      · have heq : PoliceSpider.processLink uj cfg pageUrl d acc link = acc := by
          simp [PoliceSpider.processLink, h0, hf, hm]
        rw [heq]
        exact h
      · cases hd : PoliceSpider.is_document_url cfg
            (PoliceSpider.clean_url (uj pageUrl (pyStrip link))) with
        | false =>
          have heq : PoliceSpider.processLink uj cfg pageUrl d acc link =
              { found_urls := acc.found_urls
                results := acc.results
                follows := acc.follows ++
                  [PoliceSpider.clean_url (uj pageUrl (pyStrip link))] } := by
            simp [PoliceSpider.processLink, h0, hf, hm, hd]
          rw [heq]
          exact h
        | true =>
          rw [processLink_document_eq uj cfg pageUrl d acc link h0 hf hm hd]
          intro u
          obtain ⟨hle, hmem⟩ := h u
          rw [← List.append_assoc, docCount_append, docCount_docResult]
          by_cases hequ : PoliceSpider.clean_url (uj pageUrl (pyStrip link)) = u
          · have hzero : PoliceSpider.docCount (pre ++ acc.results) u = 0 := by
              by_contra hne
              exact hm (hequ ▸ hmem (Nat.one_le_iff_ne_zero.mpr hne))
            rw [hzero, hequ]
            simp only [if_pos rfl]
            constructor
            · exact Nat.le_refl 1
            · intro _
              exact hequ ▸ List.mem_insert_self _ _
          · rw [if_neg hequ, Nat.add_zero]
            constructor
            · exact hle
            · intro h1
              exact List.mem_insert_iff.mpr (Or.inr (hmem h1))

/-- The whole link loop preserves the document invariant. -/
theorem foldl_processLink_docInv (uj : String → String → String)
    (cfg : PoliceSpider.CrawlConfig) (pageUrl : String) (d : Nat)
    (links : List String) (acc : PoliceSpider.ParseAcc)
    (pre : List PoliceSpider.CrawlResult)
    (h : DocInv acc.found_urls (pre ++ acc.results)) :
    DocInv ((links.foldl (PoliceSpider.processLink uj cfg pageUrl d) acc).found_urls)
      (pre ++ (links.foldl (PoliceSpider.processLink uj cfg pageUrl d) acc).results) := by
  induction links generalizing acc with
  | nil => exact h
  | cons l ls ih =>
    rw [List.foldl_cons]
    exact ih _ (processLink_docInv uj cfg pageUrl d acc l pre h)

/-- `parse` preserves the document invariant: the current-page item has a
numeric status and the link loop preserves it. -/
theorem parse_docInv (uj : String → String → String)
    (cfg : PoliceSpider.CrawlConfig) (found : List String)
    (r : PoliceSpider.PageResponse) (pre : List PoliceSpider.CrawlResult)
    (h : DocInv found pre) :
    DocInv ((PoliceSpider.parse uj cfg found r).found_urls)
      (pre ++ (PoliceSpider.parse uj cfg found r).results) := by
  simp only [PoliceSpider.parse]
  apply foldl_processLink_docInv
  intro u
  obtain ⟨h1, h2⟩ := h u
  rw [docCount_append, docCount_http_zero, Nat.add_zero]
  constructor
  · exact h1
  · intro hone
    exact List.mem_insert_iff.mpr (Or.inr (h2 hone))

/-- A whole crawl run satisfies the document invariant. -/
theorem runCrawl_docInv (uj : String → String → String)
    (cfg : PoliceSpider.CrawlConfig) (rs : List PoliceSpider.PageResponse) :
    DocInv ((PoliceSpider.runCrawl uj cfg rs).found_urls)
      ((PoliceSpider.runCrawl uj cfg rs).results) := by
  suffices hgen : ∀ (rl : List PoliceSpider.PageResponse) (acc : PoliceSpider.ParseAcc),
      DocInv acc.found_urls acc.results →
      DocInv ((rl.foldl (PoliceSpider.crawlStep uj cfg) acc).found_urls)
        ((rl.foldl (PoliceSpider.crawlStep uj cfg) acc).results) by
    apply hgen
    intro u
    refine ⟨?_, ?_⟩
    · simp [PoliceSpider.docCount]
    · intro h1
      simp [PoliceSpider.docCount] at h1
  intro rl
  induction rl with
  | nil => intro acc h; exact h
  | cons r rest ih =>
    intro acc h
    rw [List.foldl_cons]
    apply ih
    simp only [PoliceSpider.crawlStep]
    exact parse_docInv uj cfg acc.found_urls r acc.results h

/-- Every `processLink` step only appends to the emitted items. -/
theorem processLink_results_extend (uj : String → String → String)
    (cfg : PoliceSpider.CrawlConfig) (pageUrl : String) (d : Nat)
    (acc : PoliceSpider.ParseAcc) (link : String) :
    ∃ δ, (PoliceSpider.processLink uj cfg pageUrl d acc link).results =
      acc.results ++ δ := by
  simp only [PoliceSpider.processLink]
  split
  · exact ⟨[], by simp⟩
  · split
    · split
      · exact ⟨[], by simp⟩
      · split
        · exact ⟨_, rfl⟩
        · exact ⟨[], by simp⟩
    · exact ⟨[], by simp⟩

/-- The link loop only appends to the emitted items. -/
theorem foldl_processLink_results_extend (uj : String → String → String)
    (cfg : PoliceSpider.CrawlConfig) (pageUrl : String) (d : Nat)
    (links : List String) (acc : PoliceSpider.ParseAcc) :
    ∃ δ, ((links.foldl (PoliceSpider.processLink uj cfg pageUrl d) acc).results) =
      acc.results ++ δ := by
  induction links generalizing acc with
  | nil => exact ⟨[], by simp⟩
  | cons l ls ih =>
    obtain ⟨d1, h1⟩ := processLink_results_extend uj cfg pageUrl d acc l
    obtain ⟨d2, h2⟩ := ih (PoliceSpider.processLink uj cfg pageUrl d acc l)
    refine ⟨d1 ++ d2, ?_⟩
    rw [List.foldl_cons, h2, h1, List.append_assoc]

/-- C1 counterexample: delivering the start URL's response twice in one run
(the re-entry the claim describes) emits two `CrawlResult` items for the
same URL, because `parse` yields the current-page item without consulting
`found_urls`. -/
theorem reprocessing_start_url_emits_twice :
    ((PoliceSpider.runCrawl (fun _ l => l) PoliceSpider.policeConfig
        [selfResponse, selfResponse]).results.countP
      (fun cr => cr.url == "https://keralapolice.gov.in/")) = 2 ∧
    ¬ (((PoliceSpider.runCrawl (fun _ l => l) PoliceSpider.policeConfig
        [selfResponse, selfResponse]).results.countP
      (fun cr => cr.url == "https://keralapolice.gov.in/")) ≤ 1) := by decide

/-- C1 (amended): in every crawl run, no URL appears in more than one
document-sentinel `CrawlResult` (document emission is guarded by
`found_urls`), but the current-page `CrawlResult` is emitted
unconditionally on every processed response, so re-processing the same
URL's response emits a further item for it. -/
theorem crawl_document_dedup_page_unconditional :
    (∀ (uj : String → String → String) (cfg : PoliceSpider.CrawlConfig)
       (rs : List PoliceSpider.PageResponse) (u : String),
       PoliceSpider.docCount (PoliceSpider.runCrawl uj cfg rs).results u ≤ 1) ∧
    (∀ (uj : String → String → String) (cfg : PoliceSpider.CrawlConfig)
       (found : List String) (r : PoliceSpider.PageResponse),
       ((PoliceSpider.parse uj cfg found r).results).head? =
         some { url := r.url, status_code := PoliceSpider.StatusVal.http r.status,
                content_type := r.content_type, title := r.title, depth := r.depth }) := by
  constructor
  · intro uj cfg rs u
    exact (runCrawl_docInv uj cfg rs u).1
  · intro uj cfg found r
    simp only [PoliceSpider.parse]
    obtain ⟨δ, hδ⟩ := foldl_processLink_results_extend uj cfg r.url r.depth r.links
      { found_urls := found.insert r.url
        results := [{ url := r.url, status_code := PoliceSpider.StatusVal.http r.status,
                      content_type := r.content_type, title := r.title, depth := r.depth }]
        follows := [] }
    rw [hδ]
    rfl
